import Mathlib

/-!
Shallow embedding of `src/core/operations/Fetch.mjs` (the `Fetch` CyberChef
operation) and proofs about its `run` method.

Strings are modelled at the character-list level where the source slices and
splits them; the external `fetch` transport is modelled as an explicit
function argument producing either a rejection (with the error's string
form) or a response carrying a status code, a response-type classification,
and the two possible body reads.  The operation instance's mutable
`outputType` / `presentType` fields are threaded as explicit state.
-/

set_option autoImplicit false

deriving instance DecidableEq for Except

namespace Fetch

/-- Whitespace characters removed by JavaScript's `String.prototype.trim`
(the ASCII subset that can occur in header/URL text). -/
def isJsWhitespace (c : Char) : Bool :=
  c = ' ' || c = '\t' || c = '\n' || c = '\r' || c = '\x0b' || c = '\x0c'

/-- Embedding of `s.trim()` on character lists: drop whitespace from both
ends. -/
def trimL (l : List Char) : List Char :=
  ((l.dropWhile isJsWhitespace).reverse.dropWhile isJsWhitespace).reverse

/-- Embedding of `s.trim()` on strings (used for `(input || "").trim()`). -/
def jsTrim (s : String) : String :=
  (trimL s.toList).asString

/-- Embedding of `headersText.split(/\r?\n/)`: split at each `"\n"`,
consuming an immediately preceding `"\r"` together with it. -/
def splitLines : List Char → List (List Char)
  | [] => [[]]
  | '\r' :: '\n' :: rest => [] :: splitLines rest
  | '\n' :: rest => [] :: splitLines rest
  | c :: rest =>
    match splitLines rest with
    | [] => [[c]]
    | p :: ps => (c :: p) :: ps

/-- Embedding of `line.indexOf(":")` followed by
`line.slice(0, colonIndex)` / `line.slice(colonIndex + 1)`: `none` when the
line has no colon, otherwise the parts before and after the first colon. -/
def splitAtFirstColon : List Char → Option (List Char × List Char)
  | [] => none
  | ':' :: rest => some ([], rest)
  | c :: rest => (splitAtFirstColon rest).map (fun p => (c :: p.1, p.2))

/-- Lowercasing of a header name character by character (the `Headers`
class normalizes names to lower case). -/
def lowerName (s : String) : String :=
  (s.toList.map Char.toLower).asString

/-- Embedding of the `Headers` object as an ordered name–value list.
`Headers.prototype.set` stores the name lowercased and overwrites an
existing entry in place, otherwise appends.  (Token validation of header
names by the platform class is not modelled; the claims do not touch it.) -/
def headersSet (hs : List (String × String)) (name value : String) :
    List (String × String) :=
  let key := lowerName name
  if hs.any (fun p => p.1 = key) then
    hs.map (fun p => if p.1 = key then (key, value) else p)
  else
    hs ++ [(key, value)]

/-- Embedding of `OperationError`: the single error class used by the
operation, carrying its message. -/
structure OperationError where
  message : String
deriving DecidableEq, Repr

/-- Modelled from the spec: `OperationError` lives in
`src/core/errors/OperationError.mjs`, which is not under `src/`; per the
spec's error model (§7) it is a plain message-carrying error class, so its
JavaScript string form is the default `Error.prototype.toString`,
`name ++ ": " ++ message` with the inherited name `"Error"`. -/
def operationErrorToString (e : OperationError) : String :=
  if e.message.length = 0 then "Error" else "Error: " ++ e.message

/-- Message of the error thrown when the Fetch API is absent (note the
trailing period in the source). -/
def fetchUnavailableMessage : String :=
  "Fetch API is not available in this environment."

/-- Message of the error thrown on a header line that cannot be parsed. -/
def headerParseErrorMessage (line : String) : String :=
  "Could not parse header in line: " ++ line

/-- Message of the error thrown on a status-0 opaque response. -/
def nullResponseMessage : String :=
  "Error: Null response. Try setting the connection mode to CORS."

/-- Hint block appended by the `catch` clause to any error raised inside
the `try` block. -/
def hintBlock : String :=
  "\n\nThis error could be caused by one of the following:\n" ++
  " - An invalid URL\n" ++
  " - Making a request to an insecure resource (HTTP) from a secure source (HTTPS)\n" ++
  " - Making a cross-origin request to a server which does not support CORS"

/-- Processing of one raw header line inside the `forEach` body: trim,
skip if blank, split at the first colon (error if none), trim name and
value, error if the name is empty, otherwise insert into the header set. -/
def parseHeaderLine (hs : List (String × String)) (rawLine : List Char) :
    Except OperationError (List (String × String)) :=
  let line := trimL rawLine
  if line.length = 0 then .ok hs
  else
    match splitAtFirstColon line with
    | none => .error ⟨headerParseErrorMessage line.asString⟩
    | some (pre, post) =>
      let name := (trimL pre).asString
      let value := (trimL post).asString
      if name.length = 0 then .error ⟨headerParseErrorMessage line.asString⟩
      else .ok (headersSet hs name value)

/-- Folding `parseHeaderLine` over the split lines; a thrown error escapes
the whole `forEach`. -/
def parseHeaderLines (hs : List (String × String)) :
    List (List Char) → Except OperationError (List (String × String))
  | [] => .ok hs
  | l :: rest =>
    match parseHeaderLine hs l with
    | .error e => .error e
    | .ok hs' => parseHeaderLines hs' rest

/-- Embedding of the header-parsing block of `run`: split `headersText`
on line breaks and fold the per-line parser over a fresh `Headers`. -/
def parseHeaders (headersText : String) :
    Except OperationError (List (String × String)) :=
  parseHeaderLines [] (splitLines headersText.toList)

/-- Decision of whether a raw header line makes the per-line parser throw:
its trimmed form is non-blank and either has no colon or has an empty
trimmed part before the first colon. -/
def badHeaderLine (l : List Char) : Bool :=
  let t := trimL l
  decide (t.length ≠ 0) &&
    (match splitAtFirstColon t with
     | none => true
     | some (pre, _) => decide ((trimL pre).length = 0))

/-- Embedding of the request configuration object passed to `fetch`. -/
structure RequestConfig where
  method : String
  headers : List (String × String)
  cache : String
  body : Option String
deriving DecidableEq, Repr

/-- Embedding of the configuration-building block: method and headers as
given, `cache: "no-cache"`, and `body` set to the payload exactly when the
method is neither GET nor HEAD and the payload is non-empty. -/
def buildConfig (method payload : String) (headers : List (String × String)) :
    RequestConfig :=
  { method := method
    headers := headers
    cache := "no-cache"
    body :=
      if method ≠ "GET" ∧ method ≠ "HEAD" ∧ payload.length > 0 then some payload
      else none }

/-- Model of the transport's response object: status code, response-type
classification, and the outcomes of the two possible body reads
(`arrayBuffer()` yielding the raw bytes of the body, `text()` yielding the
decoded text); a failing read carries the error's string form. -/
structure TransportResponse where
  status : Nat
  responseType : String
  arrayBufferResult : Except String (List Nat)
  textResult : Except String String

/-- Model of one `fetch` invocation's outcome: the promise either rejects
(carrying the error's string form) or resolves to a response. -/
inductive TransportBehavior where
  | reject (errString : String)
  | resolve (resp : TransportResponse)

/-- Value returned by a successful `run`: a string or a byte sequence
(`Array.from(new Uint8Array(buffer))`). -/
inductive RunValue where
  | str (s : String)
  | bytes (bs : List Nat)
deriving DecidableEq, Repr

/-- Mutable operation metadata touched by `run`: the declared output type
and presentation type. -/
structure OperationState where
  outputType : String
  presentType : String
deriving DecidableEq, Repr

/-- Complete observable outcome of one `run` call: the returned value or
thrown error, the final operation metadata, and the requests issued to the
transport (in order). -/
structure RunResult where
  result : Except OperationError RunValue
  state : OperationState
  requests : List (String × RequestConfig)

/-- Embedding of `Fetch.run(input, args)`.  `st` is the operation's
mutable metadata on entry, `fetchAvailable` models `typeof fetch ===
"function"`, and `transport` models the ambient `fetch` capability.  The
error raised on a status-0 opaque response is thrown inside the `try`
block, so the `catch` clause wraps it with the hint block like any other
failure. -/
def run (st : OperationState) (fetchAvailable : Bool)
    (transport : String → RequestConfig → TransportBehavior)
    (input method payload headersText returnType : String) : RunResult :=
  let targetUrl := jsTrim input
  if targetUrl.length = 0 then
    { result := .ok (.str ""), state := st, requests := [] }
  else if fetchAvailable = false then
    { result := .error ⟨fetchUnavailableMessage⟩, state := st, requests := [] }
  else
    match parseHeaders headersText with
    | .error e => { result := .error e, state := st, requests := [] }
    | .ok headers =>
      let config := buildConfig method payload headers
      match transport targetUrl config with
      | .reject errString =>
        { result := .error ⟨errString ++ hintBlock⟩
          state := st
          requests := [(targetUrl, config)] }
      | .resolve resp =>
        if resp.status = 0 ∧ resp.responseType = "opaque" then
          { result := .error
              ⟨operationErrorToString ⟨nullResponseMessage⟩ ++ hintBlock⟩
            state := st
            requests := [(targetUrl, config)] }
        else
          let wantsBytes := returnType = "Bytes"
          let selectedType := if wantsBytes then "byteArray" else "string"
          let st' : OperationState :=
            { outputType := selectedType, presentType := selectedType }
          if wantsBytes then
            match resp.arrayBufferResult with
            | .error errString =>
              { result := .error ⟨errString ++ hintBlock⟩
                state := st'
                requests := [(targetUrl, config)] }
            | .ok buffer =>
              { result := .ok (.bytes (buffer.map (fun b => b % 256)))
                state := st'
                requests := [(targetUrl, config)] }
          else
            match resp.textResult with
            | .error errString =>
              { result := .error ⟨errString ++ hintBlock⟩
                state := st'
                requests := [(targetUrl, config)] }
            | .ok text =>
              { result := .ok (.str text)
                state := st'
                requests := [(targetUrl, config)] }

theorem jsTrim_length_eq_zero_iff (s : String) :
    (jsTrim s).length = 0 ↔ jsTrim s = "" := by
  unfold jsTrim
  rw [List.length_asString, List.length_eq_zero, List.asString_eq]
  simp

theorem run_of_empty_url (st : OperationState) (avail : Bool)
    (transport : String → RequestConfig → TransportBehavior)
    (input m p ht rt : String) (h : jsTrim input = "") :
    run st avail transport input m p ht rt =
      ⟨.ok (.str ""), st, []⟩ := by
  unfold run
  simp [h]

theorem run_of_unavailable (st : OperationState)
    (transport : String → RequestConfig → TransportBehavior)
    (input m p ht rt : String) (h : jsTrim input ≠ "") :
    run st false transport input m p ht rt =
      ⟨.error ⟨fetchUnavailableMessage⟩, st, []⟩ := by
  unfold run
  simp [jsTrim_length_eq_zero_iff, h]

theorem run_of_headers_error (st : OperationState)
    (transport : String → RequestConfig → TransportBehavior)
    (input m p ht rt : String) (e : OperationError)
    (h : jsTrim input ≠ "") (he : parseHeaders ht = .error e) :
    run st true transport input m p ht rt = ⟨.error e, st, []⟩ := by
  unfold run
  simp [jsTrim_length_eq_zero_iff, h, he]

theorem run_of_reject (st : OperationState)
    (transport : String → RequestConfig → TransportBehavior)
    (input m p ht rt : String) (headers : List (String × String)) (d : String)
    (h : jsTrim input ≠ "") (hh : parseHeaders ht = .ok headers)
    (htr : transport (jsTrim input) (buildConfig m p headers) = .reject d) :
    run st true transport input m p ht rt =
      ⟨.error ⟨d ++ hintBlock⟩, st,
        [(jsTrim input, buildConfig m p headers)]⟩ := by
  unfold run
  simp [jsTrim_length_eq_zero_iff, h, hh, htr]

theorem run_of_blocked (st : OperationState)
    (transport : String → RequestConfig → TransportBehavior)
    (input m p ht rt : String) (headers : List (String × String))
    (resp : TransportResponse)
    (h : jsTrim input ≠ "") (hh : parseHeaders ht = .ok headers)
    (htr : transport (jsTrim input) (buildConfig m p headers) = .resolve resp)
    (hs : resp.status = 0) (hy : resp.responseType = "opaque") :
    run st true transport input m p ht rt =
      ⟨.error ⟨operationErrorToString ⟨nullResponseMessage⟩ ++ hintBlock⟩, st,
        [(jsTrim input, buildConfig m p headers)]⟩ := by
  unfold run
  simp [jsTrim_length_eq_zero_iff, h, hh, htr, hs, hy]

theorem run_of_bytes_ok (st : OperationState)
    (transport : String → RequestConfig → TransportBehavior)
    (input m p ht : String) (headers : List (String × String))
    (resp : TransportResponse) (buffer : List Nat)
    (h : jsTrim input ≠ "") (hh : parseHeaders ht = .ok headers)
    (htr : transport (jsTrim input) (buildConfig m p headers) = .resolve resp)
    (hnb : ¬(resp.status = 0 ∧ resp.responseType = "opaque"))
    (hb : resp.arrayBufferResult = .ok buffer) :
    run st true transport input m p ht "Bytes" =
      ⟨.ok (.bytes (buffer.map (fun b => b % 256))),
        ⟨"byteArray", "byteArray"⟩,
        [(jsTrim input, buildConfig m p headers)]⟩ := by
  unfold run
  simp [jsTrim_length_eq_zero_iff, h, hh, htr, hnb, hb]

theorem run_of_bytes_err (st : OperationState)
    (transport : String → RequestConfig → TransportBehavior)
    (input m p ht : String) (headers : List (String × String))
    (resp : TransportResponse) (d : String)
    (h : jsTrim input ≠ "") (hh : parseHeaders ht = .ok headers)
    (htr : transport (jsTrim input) (buildConfig m p headers) = .resolve resp)
    (hnb : ¬(resp.status = 0 ∧ resp.responseType = "opaque"))
    (hb : resp.arrayBufferResult = .error d) :
    run st true transport input m p ht "Bytes" =
      ⟨.error ⟨d ++ hintBlock⟩,
        ⟨"byteArray", "byteArray"⟩,
        [(jsTrim input, buildConfig m p headers)]⟩ := by
  unfold run
  simp [jsTrim_length_eq_zero_iff, h, hh, htr, hnb, hb]

theorem run_of_text_ok (st : OperationState)
    (transport : String → RequestConfig → TransportBehavior)
    (input m p ht rt : String) (headers : List (String × String))
    (resp : TransportResponse) (t : String)
    (h : jsTrim input ≠ "") (hh : parseHeaders ht = .ok headers)
    (htr : transport (jsTrim input) (buildConfig m p headers) = .resolve resp)
    (hnb : ¬(resp.status = 0 ∧ resp.responseType = "opaque"))
    (hrt : rt ≠ "Bytes")
    (hb : resp.textResult = .ok t) :
    run st true transport input m p ht rt =
      ⟨.ok (.str t),
        ⟨"string", "string"⟩,
        [(jsTrim input, buildConfig m p headers)]⟩ := by
  unfold run
  simp [jsTrim_length_eq_zero_iff, h, hh, htr, hnb, hrt, hb]

theorem run_of_text_err (st : OperationState)
    (transport : String → RequestConfig → TransportBehavior)
    (input m p ht rt : String) (headers : List (String × String))
    (resp : TransportResponse) (d : String)
    (h : jsTrim input ≠ "") (hh : parseHeaders ht = .ok headers)
    (htr : transport (jsTrim input) (buildConfig m p headers) = .resolve resp)
    (hnb : ¬(resp.status = 0 ∧ resp.responseType = "opaque"))
    (hrt : rt ≠ "Bytes")
    (hb : resp.textResult = .error d) :
    run st true transport input m p ht rt =
      ⟨.error ⟨d ++ hintBlock⟩,
        ⟨"string", "string"⟩,
        [(jsTrim input, buildConfig m p headers)]⟩ := by
  unfold run
  simp [jsTrim_length_eq_zero_iff, h, hh, htr, hnb, hrt, hb]

theorem parseHeaderLine_of_bad (hs : List (String × String)) (l : List Char)
    (hb : badHeaderLine l = true) :
    parseHeaderLine hs l = .error ⟨headerParseErrorMessage (trimL l).asString⟩ := by
  unfold badHeaderLine at hb
  unfold parseHeaderLine
  simp only [Bool.and_eq_true, decide_eq_true_eq] at hb
  obtain ⟨hne, hrest⟩ := hb
  rw [if_neg hne]
  cases hsp : splitAtFirstColon (trimL l) with
  | none => simp
  | some pq =>
    obtain ⟨pre, post⟩ := pq
    rw [hsp] at hrest
    simp only [decide_eq_true_eq] at hrest
    simp [List.length_asString, hrest]

theorem parseHeaderLine_of_good (hs : List (String × String)) (l : List Char)
    (hb : badHeaderLine l = false) :
    (trimL l).length = 0 ∧ parseHeaderLine hs l = .ok hs ∨
    ∃ pre post, splitAtFirstColon (trimL l) = some (pre, post) ∧
      parseHeaderLine hs l =
        .ok (headersSet hs (trimL pre).asString (trimL post).asString) := by
  unfold badHeaderLine at hb
  unfold parseHeaderLine
  simp only [Bool.and_eq_false_iff, decide_eq_false_iff_not, not_not] at hb
  rcases hb with hz | hrest
  · exact Or.inl ⟨hz, by simp [hz]⟩
  · cases hsp : splitAtFirstColon (trimL l) with
    | none => rw [hsp] at hrest; simp at hrest
    | some pq =>
      obtain ⟨pre, post⟩ := pq
      rw [hsp] at hrest
      simp only [decide_eq_false_iff_not] at hrest
      by_cases hz : (trimL l).length = 0
      · exact Or.inl ⟨hz, by simp [hz]⟩
      · refine Or.inr ⟨pre, post, rfl, ?_⟩
        rw [if_neg hz, hsp]
        simp [List.length_asString, hrest]

theorem parseHeaderLines_find_bad (lines : List (List Char))
    (hs : List (String × String)) (B : List Char)
    (hfind : lines.find? badHeaderLine = some B) :
    parseHeaderLines hs lines =
      .error ⟨headerParseErrorMessage (trimL B).asString⟩ := by
  induction lines generalizing hs with
  | nil => simp [List.find?] at hfind
  | cons l rest ih =>
    rw [List.find?_cons] at hfind
    cases hb : badHeaderLine l with
    | true =>
      rw [hb] at hfind
      simp only [cond_true, Option.some.injEq] at hfind
      subst hfind
      unfold parseHeaderLines
      rw [parseHeaderLine_of_bad hs l hb]
    | false =>
      rw [hb] at hfind
      simp only [cond_false] at hfind
      unfold parseHeaderLines
      rcases parseHeaderLine_of_good hs l hb with ⟨_, hok⟩ | ⟨pre, post, _, hok⟩ <;>
        rw [hok] <;> exact ih _ hfind

theorem string_length_pos (s : String) : 0 < s.length ↔ s ≠ "" := by
  cases s with
  | mk data => simp [String.length, List.length_pos, String.ext_iff]

theorem splitAtFirstColon_append (pre post : List Char) (hpre : ':' ∉ pre) :
    splitAtFirstColon (pre ++ ':' :: post) = some (pre, post) := by
  induction pre with
  | nil => rfl
  | cons c cs ih =>
    have hc : c ≠ ':' := fun he => hpre (he ▸ List.mem_cons_self c cs)
    have hcs : ':' ∉ cs := fun hm => hpre (List.mem_cons_of_mem c hm)
    rw [List.cons_append, splitAtFirstColon]
    · rw [ih hcs]
      rfl
    · exact hc

theorem headersSet_overwrite (hs : List (String × String)) (n v1 v2 : String) :
    headersSet (headersSet hs n v1) n v2 = headersSet hs n v2 := by
  unfold headersSet
  by_cases hmem : hs.any (fun p => decide (p.1 = lowerName n)) = true
  · rw [if_pos hmem]
    have hmem2 :
        ((hs.map fun p => if p.1 = lowerName n then (lowerName n, v1) else p).any
          fun p => decide (p.1 = lowerName n)) = true := by
      rw [List.any_eq_true] at hmem ⊢
      obtain ⟨p, hp, hpk⟩ := hmem
      rw [decide_eq_true_eq] at hpk
      refine ⟨(lowerName n, v1), List.mem_map.2 ⟨p, hp, by simp [hpk]⟩, by simp⟩
    rw [if_pos hmem2, if_pos hmem, List.map_map]
    refine List.map_congr_left (fun p _ => ?_)
    by_cases hp : p.1 = lowerName n <;> simp [Function.comp, hp]
  · rw [if_neg hmem]
    have hmem2 :
        ((hs ++ [(lowerName n, v1)]).any fun p => decide (p.1 = lowerName n)) = true := by
      simp
    rw [if_pos hmem2, if_neg hmem, List.map_append]
    have hnone : ∀ p ∈ hs, p.1 ≠ lowerName n := by
      rw [Bool.not_eq_true, List.any_eq_false] at hmem
      intro p hp
      simpa using hmem p hp
    have hmap :
        (hs.map fun p => if p.1 = lowerName n then (lowerName n, v2) else p) = hs := by
      rw [List.map_congr_left (g := id) (fun p hp => by simp [hnone p hp]), List.map_id]
    simp [hmap]

theorem run_requests_of_ok_headers (st : OperationState)
    (transport : String → RequestConfig → TransportBehavior)
    (input m p ht rt : String) (headers : List (String × String))
    (h : jsTrim input ≠ "") (hh : parseHeaders ht = .ok headers) :
    (run st true transport input m p ht rt).requests =
      [(jsTrim input, buildConfig m p headers)] := by
  cases htr : transport (jsTrim input) (buildConfig m p headers) with
  | reject d => rw [run_of_reject st transport input m p ht rt headers d h hh htr]
  | resolve resp =>
    by_cases hnb : resp.status = 0 ∧ resp.responseType = "opaque"
    · rw [run_of_blocked st transport input m p ht rt headers resp h hh htr hnb.1 hnb.2]
    · by_cases hrt : rt = "Bytes"
      · subst hrt
        cases hb : resp.arrayBufferResult with
        | error d =>
          rw [run_of_bytes_err st transport input m p ht headers resp d h hh htr hnb hb]
        | ok buffer =>
          rw [run_of_bytes_ok st transport input m p ht headers resp buffer h hh htr hnb hb]
      · cases hb : resp.textResult with
        | error d =>
          rw [run_of_text_err st transport input m p ht rt headers resp d h hh htr hnb hrt hb]
        | ok t =>
          rw [run_of_text_ok st transport input m p ht rt headers resp t h hh htr hnb hrt hb]

/-- Claim C1 as stated is false: the blocked-response error is thrown
inside the `try` block, so the `catch` clause appends the hint block to
its string form; at this concrete invocation the resulting message is the
wrapped one, not the bare "Error: Null response. Try setting the
connection mode to CORS.". -/
theorem claim1_counterexample :
    (run ⟨"string", "string"⟩ true
        (fun _ _ => .resolve ⟨0, "opaque", .ok [], .ok ""⟩)
        "http://example.com" "GET" "" "" "String").result =
      .error ⟨operationErrorToString ⟨nullResponseMessage⟩ ++ hintBlock⟩ ∧
    (run ⟨"string", "string"⟩ true
        (fun _ _ => .resolve ⟨0, "opaque", .ok [], .ok ""⟩)
        "http://example.com" "GET" "" "" "String").result ≠
      .error ⟨nullResponseMessage⟩ := by
  constructor
  · rfl
  · decide

/-- Claim C1 (amended): for every invocation in which the transport
returns a response with status 0 and classification "opaque", `run` fails
with an error raised by the blocked-response check, but since that check
sits inside the `try` block the catch-all wraps it: the final message is
the string form of the blocked-response error followed by the generic
hint block, and the operation state is left untouched. -/
theorem claim1_blocked_response_is_wrapped (st : OperationState)
    (transport : String → RequestConfig → TransportBehavior)
    (input m p ht rt : String) (headers : List (String × String))
    (resp : TransportResponse)
    (h : jsTrim input ≠ "") (hh : parseHeaders ht = .ok headers)
    (htr : transport (jsTrim input) (buildConfig m p headers) = .resolve resp)
    (hs0 : resp.status = 0) (hop : resp.responseType = "opaque") :
    run st true transport input m p ht rt =
      ⟨.error ⟨operationErrorToString ⟨nullResponseMessage⟩ ++ hintBlock⟩, st,
        [(jsTrim input, buildConfig m p headers)]⟩ :=
  run_of_blocked st transport input m p ht rt headers resp h hh htr hs0 hop

/-- Witness for the amended C1 at a concrete blocked invocation. -/
theorem claim1_blocked_response_is_wrapped_witness :
    run ⟨"string", "string"⟩ true
        (fun _ _ => .resolve ⟨0, "opaque", .ok [], .ok ""⟩)
        "http://example.com" "GET" "" "" "String" =
      ⟨.error ⟨operationErrorToString ⟨nullResponseMessage⟩ ++ hintBlock⟩,
        ⟨"string", "string"⟩,
        [(jsTrim "http://example.com",
          buildConfig "GET" "" [])]⟩ :=
  claim1_blocked_response_is_wrapped ⟨"string", "string"⟩
    (fun _ _ => .resolve ⟨0, "opaque", .ok [], .ok ""⟩)
    "http://example.com" "GET" "" "" "String" [] ⟨0, "opaque", .ok [], .ok ""⟩
    (by decide) (by decide) rfl rfl rfl

/-- Claim C2: for every input whose trimmed form is empty (including pure
whitespace), `run` returns the empty string, issues no request to the
transport, and leaves the operation's declared output and presentation
types unchanged, for every combination of the other arguments. -/
theorem claim2_blank_input_short_circuits (st : OperationState) (avail : Bool)
    (transport : String → RequestConfig → TransportBehavior)
    (input m p ht rt : String) (h : jsTrim input = "") :
    run st avail transport input m p ht rt = ⟨.ok (.str ""), st, []⟩ :=
  run_of_empty_url st avail transport input m p ht rt h

/-- Witness for C2 at the pure-whitespace input from the spec. -/
theorem claim2_blank_input_short_circuits_witness :
    run ⟨"string", "string"⟩ true (fun _ _ => .reject "boom")
        "   " "POST" "x" "not a header" "Bytes" =
      ⟨.ok (.str ""), ⟨"string", "string"⟩, []⟩ :=
  claim2_blank_input_short_circuits ⟨"string", "string"⟩ true
    (fun _ _ => .reject "boom") "   " "POST" "x" "not a header" "Bytes"
    (by decide)

/-- Claim C3: whenever the header block contains a line whose trimmed form
is non-blank and either has no colon or has an empty trimmed name before
the first colon, `run` fails with the header-parse error whose message is
"Could not parse header in line: " followed by the (first such) trimmed
line verbatim; the error reaches the caller exactly as thrown, with no
hint block appended, and no request is issued. -/
theorem claim3_header_parse_error (st : OperationState)
    (transport : String → RequestConfig → TransportBehavior)
    (input m p ht rt : String) (B : List Char)
    (h : jsTrim input ≠ "")
    (hfind : (splitLines ht.toList).find? badHeaderLine = some B) :
    run st true transport input m p ht rt =
      ⟨.error ⟨headerParseErrorMessage (trimL B).asString⟩, st, []⟩ := by
  refine run_of_headers_error st transport input m p ht rt _ h ?_
  unfold parseHeaders
  exact parseHeaderLines_find_bad _ _ _ hfind

/-- Witness for C3 at the spec's colon-free line "X-Foo". -/
theorem claim3_header_parse_error_witness :
    run ⟨"string", "string"⟩ true (fun _ _ => .reject "boom")
        "http://example.com" "GET" "" "X-Foo" "String" =
      ⟨.error ⟨headerParseErrorMessage (trimL "X-Foo".toList).asString⟩,
        ⟨"string", "string"⟩, []⟩ :=
  claim3_header_parse_error ⟨"string", "string"⟩ (fun _ _ => .reject "boom")
    "http://example.com" "GET" "" "X-Foo" "String" "X-Foo".toList
    (by decide) (by decide)

/-- Claim C4: each well-formed header line is split at its first colon
with both parts trimmed (stored under the lowercased name, as the
`Headers` class does); an empty trimmed value is accepted ("X-Foo:" yields
the header with empty value); blank lines after trimming are skipped; and
a later line with the same name overwrites the earlier one ("A: 1\nA: 2"
yields the single header with value "2"). -/
theorem claim4_header_parsing_shape :
    parseHeaders "X-Foo:" = .ok [("x-foo", "")] ∧
    parseHeaders "A: 1\nA: 2" = .ok [("a", "2")] ∧
    parseHeaders "\n   \nA: 1\n\t\n" = .ok [("a", "1")] ∧
    (∀ (hs : List (String × String)) (rawLine pre post : List Char),
      trimL rawLine = pre ++ ':' :: post → ':' ∉ pre → trimL pre ≠ [] →
      parseHeaderLine hs rawLine =
        .ok (headersSet hs (trimL pre).asString (trimL post).asString)) ∧
    (∀ (hs : List (String × String)) (n v1 v2 : String),
      headersSet (headersSet hs n v1) n v2 = headersSet hs n v2) := by
  refine ⟨by decide, by decide, by decide, ?_, headersSet_overwrite⟩
  intro hs rawLine pre post htrim hpre hprene
  have hlen : ¬((pre ++ ':' :: post).length = 0) := by simp
  have hname : ¬((trimL pre).asString.length = 0) := by
    simpa [List.length_asString, List.length_eq_zero] using hprene
  simp only [parseHeaderLine, htrim, if_neg hlen,
    splitAtFirstColon_append pre post hpre, if_neg hname]

/-- Witness for C4's general split-and-trim conjunct at the raw line
" A : b ". -/
theorem claim4_header_parsing_shape_witness :
    parseHeaderLine [] " A : b ".toList =
      .ok (headersSet [] (trimL ['A', ' ']).asString
        (trimL [' ', 'b']).asString) :=
  claim4_header_parsing_shape.2.2.2.1 [] " A : b ".toList ['A', ' '] [' ', 'b']
    (by decide) (by decide) (by decide)

/-- Claim C5: with a non-blank URL and a well-formed header block, `run`
issues exactly one request whose configuration carries a body if and only
if the method is neither GET nor HEAD and the payload is non-empty; when
attached the body is the payload verbatim, and otherwise (in particular
for a non-empty payload on GET or HEAD) no body is attached. -/
theorem claim5_body_attachment (st : OperationState)
    (transport : String → RequestConfig → TransportBehavior)
    (input m p ht rt : String) (headers : List (String × String))
    (h : jsTrim input ≠ "") (hh : parseHeaders ht = .ok headers) :
    (run st true transport input m p ht rt).requests =
      [(jsTrim input, buildConfig m p headers)] ∧
    ((buildConfig m p headers).body = some p ↔
      m ≠ "GET" ∧ m ≠ "HEAD" ∧ p ≠ "") ∧
    (m = "GET" ∨ m = "HEAD" ∨ p = "" → (buildConfig m p headers).body = none) ∧
    ((buildConfig m p headers).body = none ∨
      (buildConfig m p headers).body = some p) := by
  refine ⟨run_requests_of_ok_headers st transport input m p ht rt headers h hh,
    ?_, ?_, ?_⟩
  · by_cases hc : m ≠ "GET" ∧ m ≠ "HEAD" ∧ p.length > 0
    · have hbody : (buildConfig m p headers).body = some p := by
        simp only [buildConfig, if_pos hc]
      rw [hbody]
      exact ⟨fun _ => ⟨hc.1, hc.2.1, (string_length_pos p).1 hc.2.2⟩,
        fun _ => rfl⟩
    · have hbody : (buildConfig m p headers).body = none := by
        simp only [buildConfig, if_neg hc]
      rw [hbody]
      constructor
      · intro hcontra
        simp at hcontra
      · intro ⟨h1, h2, h3⟩
        exact absurd ⟨h1, h2, (string_length_pos p).2 h3⟩ hc
  · intro hor
    have : ¬(m ≠ "GET" ∧ m ≠ "HEAD" ∧ p.length > 0) := by
      rcases hor with h1 | h1 | h1 <;> simp [h1]
    simp only [buildConfig, if_neg this]
  · by_cases hc : m ≠ "GET" ∧ m ≠ "HEAD" ∧ p.length > 0 <;>
      simp [buildConfig, hc]

/-- Witness for C5: a POST with non-empty payload (body attached) via a
concrete run. -/
theorem claim5_body_attachment_witness :
    (run ⟨"string", "string"⟩ true (fun _ _ => .reject "boom")
        "http://example.com" "POST" "data" "" "String").requests =
      [(jsTrim "http://example.com", buildConfig "POST" "data" [])] ∧
    ((buildConfig "POST" "data" []).body = some "data" ↔
      "POST" ≠ "GET" ∧ "POST" ≠ "HEAD" ∧ "data" ≠ "") ∧
    ("POST" = "GET" ∨ "POST" = "HEAD" ∨ "data" = "" →
      (buildConfig "POST" "data" []).body = none) ∧
    ((buildConfig "POST" "data" []).body = none ∨
      (buildConfig "POST" "data" []).body = some "data") :=
  claim5_body_attachment ⟨"string", "string"⟩ (fun _ _ => .reject "boom")
    "http://example.com" "POST" "data" "" "String" [] (by decide) rfl

/-- Claim C7: on a successful request, Return type "Bytes" sets the
declared output and presentation types to "byteArray" and returns the
response body as an ordered byte sequence of the body's length with every
value at most 255; Return type "String" sets both types to "string" and
returns the decoded text body. -/
theorem claim7_return_type_selection (st : OperationState)
    (transport : String → RequestConfig → TransportBehavior)
    (input m p ht : String) (headers : List (String × String))
    (resp : TransportResponse)
    (h : jsTrim input ≠ "") (hh : parseHeaders ht = .ok headers)
    (htr : transport (jsTrim input) (buildConfig m p headers) = .resolve resp)
    (hnb : ¬(resp.status = 0 ∧ resp.responseType = "opaque")) :
    (∀ buffer : List Nat, resp.arrayBufferResult = .ok buffer →
      run st true transport input m p ht "Bytes" =
        ⟨.ok (.bytes (buffer.map (fun b => b % 256))),
          ⟨"byteArray", "byteArray"⟩,
          [(jsTrim input, buildConfig m p headers)]⟩ ∧
      (buffer.map (fun b => b % 256)).length = buffer.length ∧
      ∀ b ∈ buffer.map (fun b => b % 256), b ≤ 255) ∧
    (∀ t : String, resp.textResult = .ok t →
      run st true transport input m p ht "String" =
        ⟨.ok (.str t), ⟨"string", "string"⟩,
          [(jsTrim input, buildConfig m p headers)]⟩) := by
  constructor
  · intro buffer hb
    refine ⟨run_of_bytes_ok st transport input m p ht headers resp buffer
      h hh htr hnb hb, List.length_map buffer _, ?_⟩
    intro b hbm
    rcases List.mem_map.1 hbm with ⟨a, _, rfl⟩
    have := Nat.mod_lt a (y := 256) (by norm_num)
    omega
  · intro t hb
    exact run_of_text_ok st transport input m p ht "String" headers resp t
      h hh htr hnb (by decide) hb

/-- Witness for C7 at a concrete two-byte body. -/
theorem claim7_return_type_selection_witness :
    run ⟨"string", "string"⟩ true
        (fun _ _ => .resolve ⟨200, "basic", .ok [104, 105], .ok "hi"⟩)
        "http://example.com" "GET" "" "" "Bytes" =
      ⟨.ok (.bytes ([104, 105].map (fun b => b % 256))),
        ⟨"byteArray", "byteArray"⟩,
        [(jsTrim "http://example.com", buildConfig "GET" "" [])]⟩ ∧
    ([104, 105].map (fun b => b % 256)).length = [104, 105].length ∧
    ∀ b ∈ [104, 105].map (fun b => b % 256), b ≤ 255 :=
  (claim7_return_type_selection ⟨"string", "string"⟩
    (fun _ _ => .resolve ⟨200, "basic", .ok [104, 105], .ok "hi"⟩)
    "http://example.com" "GET" "" "" [] ⟨200, "basic", .ok [104, 105], .ok "hi"⟩
    (by decide) rfl rfl (by decide)).1 [104, 105] rfl

/-- Claim C6 as stated is false on one detail: the configuration-error
message in the source ends with a period, so at this concrete invocation
the message is "Fetch API is not available in this environment." and not
the claim's quoted string without the period. -/
theorem claim6_counterexample :
    (run ⟨"string", "string"⟩ false (fun _ _ => .reject "boom")
        "http://example.com" "GET" "" "X-Bad" "String").result =
      .error ⟨"Fetch API is not available in this environment."⟩ ∧
    (run ⟨"string", "string"⟩ false (fun _ _ => .reject "boom")
        "http://example.com" "GET" "" "X-Bad" "String").result ≠
      .error ⟨"Fetch API is not available in this environment"⟩ := by
  constructor
  · rfl
  · decide

/-- Claim C6 (amended): with a non-empty trimmed URL and no fetch
capability, `run` fails with the configuration error whose message is
"Fetch API is not available in this environment." (with trailing period),
no request is issued, and the state is untouched; this holds for every
headers block — including unparseable ones — so the capability check
precedes header parsing and any network activity. -/
theorem claim6_fetch_unavailable (st : OperationState)
    (transport : String → RequestConfig → TransportBehavior)
    (input m p ht rt : String) (h : jsTrim input ≠ "") :
    run st false transport input m p ht rt =
      ⟨.error ⟨"Fetch API is not available in this environment."⟩, st, []⟩ :=
  run_of_unavailable st transport input m p ht rt h

/-- Witness for the amended C6, with a deliberately malformed header
block. -/
theorem claim6_fetch_unavailable_witness :
    run ⟨"string", "string"⟩ false (fun _ _ => .reject "boom")
        " http://example.com " "GET" "" "not a header" "Bytes" =
      ⟨.error ⟨"Fetch API is not available in this environment."⟩,
        ⟨"string", "string"⟩, []⟩ :=
  claim6_fetch_unavailable ⟨"string", "string"⟩ (fun _ _ => .reject "boom")
    " http://example.com " "GET" "" "not a header" "Bytes" (by decide)

/-- Claim C8: any failure while issuing the request or reading the body
that is not one of the specific earlier error kinds — a rejecting fetch
call, a failing byte read, or a failing text read — is re-raised with the
original error's description concatenated with the fixed hint block, whose
three cause lines appear in the fixed order (invalid URL; insecure HTTP
resource from a secure HTTPS source; cross-origin request to a server
without CORS support). -/
theorem claim8_transport_error_wrapping (st : OperationState)
    (transport : String → RequestConfig → TransportBehavior)
    (input m p ht : String) (headers : List (String × String))
    (h : jsTrim input ≠ "") (hh : parseHeaders ht = .ok headers) :
    (∀ (rt d : String),
      transport (jsTrim input) (buildConfig m p headers) = .reject d →
      (run st true transport input m p ht rt).result =
        .error ⟨d ++ hintBlock⟩) ∧
    (∀ (resp : TransportResponse) (d : String),
      transport (jsTrim input) (buildConfig m p headers) = .resolve resp →
      ¬(resp.status = 0 ∧ resp.responseType = "opaque") →
      resp.arrayBufferResult = .error d →
      (run st true transport input m p ht "Bytes").result =
        .error ⟨d ++ hintBlock⟩) ∧
    (∀ (rt : String) (resp : TransportResponse) (d : String),
      rt ≠ "Bytes" →
      transport (jsTrim input) (buildConfig m p headers) = .resolve resp →
      ¬(resp.status = 0 ∧ resp.responseType = "opaque") →
      resp.textResult = .error d →
      (run st true transport input m p ht rt).result =
        .error ⟨d ++ hintBlock⟩) ∧
    hintBlock =
      "\n\nThis error could be caused by one of the following:\n" ++
      " - An invalid URL\n" ++
      " - Making a request to an insecure resource (HTTP) from a secure source (HTTPS)\n" ++
      " - Making a cross-origin request to a server which does not support CORS" := by
  refine ⟨?_, ?_, ?_, rfl⟩
  · intro rt d htr
    rw [run_of_reject st transport input m p ht rt headers d h hh htr]
  · intro resp d htr hnb hb
    rw [run_of_bytes_err st transport input m p ht headers resp d h hh htr hnb hb]
  · intro rt resp d hrt htr hnb hb
    rw [run_of_text_err st transport input m p ht rt headers resp d h hh htr hnb hrt hb]

/-- Witness for C8 at a simulated DNS failure. -/
theorem claim8_transport_error_wrapping_witness :
    (run ⟨"string", "string"⟩ true
        (fun _ _ => .reject "TypeError: Failed to fetch")
        "http://example.com" "GET" "" "" "String").result =
      .error ⟨"TypeError: Failed to fetch" ++ hintBlock⟩ :=
  (claim8_transport_error_wrapping ⟨"string", "string"⟩
    (fun _ _ => .reject "TypeError: Failed to fetch")
    "http://example.com" "GET" "" "" [] (by decide) rfl).1
    "String" "TypeError: Failed to fetch" rfl

/-- Claim C9: once the response passes the blocked-response check, the
declared output and presentation types are set from the Return type
("byteArray" for Bytes, "string" otherwise) regardless of how the body
reads turn out, so a failing read still leaves the caller's selection in
the operation's metadata. -/
theorem claim9_output_type_set_before_read (st : OperationState)
    (transport : String → RequestConfig → TransportBehavior)
    (input m p ht rt : String) (headers : List (String × String))
    (resp : TransportResponse)
    (h : jsTrim input ≠ "") (hh : parseHeaders ht = .ok headers)
    (htr : transport (jsTrim input) (buildConfig m p headers) = .resolve resp)
    (hnb : ¬(resp.status = 0 ∧ resp.responseType = "opaque")) :
    (run st true transport input m p ht rt).state =
      ⟨if rt = "Bytes" then "byteArray" else "string",
       if rt = "Bytes" then "byteArray" else "string"⟩ := by
  by_cases hrt : rt = "Bytes"
  · subst hrt
    cases hb : resp.arrayBufferResult with
    | error d =>
      rw [run_of_bytes_err st transport input m p ht headers resp d h hh htr hnb hb]
      simp
    | ok buffer =>
      rw [run_of_bytes_ok st transport input m p ht headers resp buffer h hh htr hnb hb]
      simp
  · cases hb : resp.textResult with
    | error d =>
      rw [run_of_text_err st transport input m p ht rt headers resp d h hh htr hnb hrt hb]
      simp [hrt]
    | ok t =>
      rw [run_of_text_ok st transport input m p ht rt headers resp t h hh htr hnb hrt hb]
      simp [hrt]

/-- Witness for C9 with a failing byte read: the state still shows
"byteArray". -/
theorem claim9_output_type_set_before_read_witness :
    (run ⟨"string", "string"⟩ true
        (fun _ _ => .resolve ⟨200, "basic", .error "read failed", .ok "hi"⟩)
        "http://example.com" "GET" "" "" "Bytes").state =
      ⟨if "Bytes" = "Bytes" then "byteArray" else "string",
       if "Bytes" = "Bytes" then "byteArray" else "string"⟩ :=
  claim9_output_type_set_before_read ⟨"string", "string"⟩
    (fun _ _ => .resolve ⟨200, "basic", .error "read failed", .ok "hi"⟩)
    "http://example.com" "GET" "" "" "Bytes" []
    ⟨200, "basic", .error "read failed", .ok "hi"⟩
    (by decide) rfl rfl (by decide)

/-- Claim C10: on each failure path before the blocked-response check —
missing transport capability, a header line that fails to parse, and a
rejecting fetch call — the operation's `outputType` and `presentType`
keep the values they had before the call. -/
theorem claim10_no_mutation_on_early_failure (st : OperationState)
    (transport : String → RequestConfig → TransportBehavior)
    (input m p ht rt : String) (h : jsTrim input ≠ "") :
    (run st false transport input m p ht rt).state = st ∧
    (∀ e : OperationError, parseHeaders ht = .error e →
      (run st true transport input m p ht rt).state = st) ∧
    (∀ (headers : List (String × String)) (d : String),
      parseHeaders ht = .ok headers →
      transport (jsTrim input) (buildConfig m p headers) = .reject d →
      (run st true transport input m p ht rt).state = st) := by
  refine ⟨?_, ?_, ?_⟩
  · rw [run_of_unavailable st transport input m p ht rt h]
  · intro e he
    rw [run_of_headers_error st transport input m p ht rt e h he]
  · intro headers d hh htr
    rw [run_of_reject st transport input m p ht rt headers d h hh htr]

/-- Witness for C10 on the rejecting-fetch path. -/
theorem claim10_no_mutation_on_early_failure_witness :
    (run ⟨"string", "someType"⟩ true (fun _ _ => .reject "boom")
        "http://example.com" "GET" "" "" "Bytes").state =
      ⟨"string", "someType"⟩ :=
  (claim10_no_mutation_on_early_failure ⟨"string", "someType"⟩
    (fun _ _ => .reject "boom") "http://example.com" "GET" "" "" "Bytes"
    (by decide)).2.2 [] "boom" rfl rfl

end Fetch
